import Mathlib

/-!
# Verification of the ULCA session core (`universal_claude_agent.py`)

A shallow embedding of the core of the Universal Local Claude Agent:
the backend retry protocol (`_call_llm`), the reply interpreter
(`_parse_llm_response`), the turn orchestrator (`process_user_input`),
the confirmation gate (`_handle_confirmation_response`), the file
operation gateway (`_create_file` / `_modify_file` / `_delete_file`)
and the context store (`_load_or_create_context`).

Python strings are sequences of Unicode code points and all indexing,
slicing and searching in the source is per character, so the string
primitives used by the source (`lower`, `strip`, `startswith`, `in`,
`find`, slicing, `split`) are modelled as operations on `String.data`,
the character list of a Lean string.

Environment effects (stdout printing, wall-clock timestamps, the HTTP
transport, `input()`) are modelled as explicit parameters: the backend
is a function from attempt number to that attempt's outcome, human
approval responses are string parameters, and the filesystem is an
association list from path to content.
-/

namespace ULCA

/-- Python `str.lower()` (per-character lowering). -/
def pyLower (s : String) : String := String.mk (s.data.map Char.toLower)

/-- Python `str.strip()`: remove leading and trailing whitespace. -/
def pyStrip (s : String) : String :=
  String.mk (((s.data.dropWhile Char.isWhitespace).reverse.dropWhile Char.isWhitespace).reverse)

/-- Python `str.startswith(pre)`: character-sequence prefix test. -/
def pyStartsWith (s pre : String) : Bool := pre.data.isPrefixOf s.data

/-- First character index at which `sub` occurs in `s`, if any
(the index python `str.find` returns when it is not `-1`). -/
def findSub (s sub : List Char) : Option Nat :=
  (List.range (s.length + 1)).find? (fun i => sub.isPrefixOf (s.drop i))

/-- Python `sub in s`: substring containment. -/
def pyContains (s sub : String) : Bool := (findSub s.data sub.data).isSome

/-- Python slice `s[a:b]` for `0 ≤ a ≤ b` (character based). -/
def pySlice (s : String) (a b : Nat) : String := String.mk ((s.data.take b).drop a)

/-- Python `s.split(sep)` for a one-character separator. -/
def pySplitChar (s : String) (c : Char) : List String := (s.data.splitOn c).map String.mk

/-- Configuration constant `MAX_RETRIES` of the source module. -/
def MAX_RETRIES : Nat := 3

/-- The reserved error marker: every error value produced by `_call_llm`
starts with this string, and `process_user_input` branches on it. -/
def errMarker : String := "Error:"

/-- Outcome of one HTTP attempt inside `_call_llm`, as seen by the retry
loop: a 2xx response whose JSON body may or may not contain the
`response` field, a timeout, a connection error, another
`RequestException` (this includes non-2xx statuses via
`raise_for_status`), or any other exception. -/
inductive AttemptOutcome where
  | success (responseField : Option String)
  | timeout
  | connectionError
  | requestError (e : String)
  | otherError (e : String)
deriving DecidableEq, Repr

/-- Final-attempt timeout error value of `_call_llm`. -/
def timeoutErrorMsg : String :=
  "Error: LLM request timed out after " ++ toString MAX_RETRIES ++
  " attempts. The model might be busy or too slow."

/-- Final-attempt connection error value of `_call_llm`. -/
def connectionErrorMsg : String :=
  "Error: Failed to connect to LLM after " ++ toString MAX_RETRIES ++
  " attempts. Check if Ollama is running."

/-- Final-attempt generic transport error value of `_call_llm`. -/
def requestErrorMsg (e : String) : String :=
  "Error: Failed to communicate with LLM after " ++ toString MAX_RETRIES ++ " attempts: " ++ e

/-- Error value for a 2xx response missing the `response` field. -/
def unexpectedFormatMsg : String := "Error: Unexpected response format from LLM"

/-- Error value for an unanticipated exception inside the loop. -/
def unexpectedErrorMsg (e : String) : String := "Error: Unexpected error calling LLM: " ++ e

/-- Error value returned if the retry loop falls through. -/
def exhaustedMsg : String := "Error: Failed to get response from LLM"

/-- The retry loop of `_call_llm`: `for attempt in range(MAX_RETRIES)`.
`fuel` counts the remaining loop iterations, `attempt` is the loop
variable, `sleeps` accumulates the durations (in seconds) passed to
`time.sleep` so far, in order.  Timeouts wait a fixed 5 seconds,
connection and other transport failures wait `2 ^ attempt` seconds;
no delay follows the final attempt. -/
def callLlmAux (outcomes : Nat → AttemptOutcome) : Nat → Nat → List Nat → String × List Nat
  | 0, _, sleeps => (exhaustedMsg, sleeps)
  | fuel + 1, attempt, sleeps =>
    match outcomes attempt with
    | .success (some text) => (pyStrip text, sleeps)
    | .success none => (unexpectedFormatMsg, sleeps)
    | .timeout =>
      if attempt < MAX_RETRIES - 1 then callLlmAux outcomes fuel (attempt + 1) (sleeps ++ [5])
      else (timeoutErrorMsg, sleeps)
    | .connectionError =>
      if attempt < MAX_RETRIES - 1 then
        callLlmAux outcomes fuel (attempt + 1) (sleeps ++ [2 ^ attempt])
      else (connectionErrorMsg, sleeps)
    | .requestError e =>
      if attempt < MAX_RETRIES - 1 then
        callLlmAux outcomes fuel (attempt + 1) (sleeps ++ [2 ^ attempt])
      else (requestErrorMsg e, sleeps)
    | .otherError e => (unexpectedErrorMsg e, sleeps)

/-- `ULCAgent._call_llm`, as a function of the per-attempt transport
outcomes.  Returns the reply value (success text stripped of
surrounding whitespace, or an error-marked string) together with the
ordered list of sleep durations performed. -/
def call_llm (outcomes : Nat → AttemptOutcome) : String × List Nat :=
  callLlmAux outcomes MAX_RETRIES 0 []

/-- One `conversation_history` entry (`_update_context`); the timestamp
string is supplied by the environment clock. -/
structure ConversationEntry where
  timestamp : String
  user_input : String
  agent_response : String
  action_taken : String
deriving DecidableEq, Repr

/-- The in-memory `ProjectContext` fields the session mutates.  The
static `llm_config` block and the `created_at` / `last_updated`
bookkeeping timestamps (re-stamped by `_save_context` from the
environment clock on every save) are not part of the mutable model. -/
structure ProjectContext where
  project_directory : String
  conversation_history : List ConversationEntry
  project_goal : String
  todo_list : List String
  current_status : String
  file_operations : List String
  build_attempts : List String
deriving DecidableEq, Repr

/-- The mutable fields of `ULCAgent`: the context plus the confirmation
gate (`confirmation_mode`, `pending_action`, `pending_question`). -/
structure AgentState where
  context : ProjectContext
  confirmation_mode : Bool
  pending_action : Option String
  pending_question : Option String
deriving DecidableEq, Repr

/-- The closed list `confirmation_indicators`, in source order. -/
def confirmation_indicators : List String :=
  ["should i proceed", "shall i proceed", "do you want me to",
   "would you like me to", "can i proceed", "may i proceed",
   "do you approve", "should i continue", "shall i continue",
   "do you want me to continue", "would you like me to continue"]

/-- Second half of the work-item test: `line and line[0].isdigit() and
'. ' in line` (a numbered-list line). -/
def isNumberedLine (line : String) : Bool :=
  match line.data with
  | [] => false
  | c :: _ => c.isDigit && pyContains line ". "

/-- Does a stripped line qualify as a work item: starts with a bullet
marker or is a numbered line, and its lowercase form contains
`todo` or `task`. -/
def isTodoLine (line : String) : Bool :=
  (pyStartsWith line "-" || pyStartsWith line "*" || pyStartsWith line "•"
    || isNumberedLine line)
  && (pyContains (pyLower line) "todo" || pyContains (pyLower line) "task")

/-- The work-item extraction loop of `_parse_llm_response`: split the
reply on newlines, strip each line, keep the qualifying ones. -/
def extractTodoItems (response : String) : List String :=
  ((pySplitChar response '\n').map pyStrip).filter isTodoLine

/-- Confirmation detection of `_parse_llm_response`: scan the indicator
list in order for a substring of the lowercased reply; on the first
match extract the snippet `response[start-100 : start+200]` (clamped)
around the match start and strip it. -/
def detectConfirmation (response : String) : Bool × String :=
  let response_lower := pyLower response
  match confirmation_indicators.find? (fun ind => pyContains response_lower ind) with
  | none => (false, "")
  | some ind =>
    match findSub response_lower.data ind.data with
    | none => (true, "")
    | some start_idx =>
      let context_start := start_idx - 100
      let context_end := min response.data.length (start_idx + 200)
      (true, pyStrip (pySlice response context_start context_end))

/-- `ULCAgent._parse_llm_response`: returns `(response, actions,
todo_items, needs_confirmation, confirmation_question)`.  The source
never fills `actions`; it stays empty. -/
def parse_llm_response (response : String) :
    String × List String × List String × Bool × String :=
  (response, [], extractTodoItems response,
   (detectConfirmation response).1, (detectConfirmation response).2)

/-- `ULCAgent._update_todo_list` on the `todo_list` field: python keeps
`list(set(todo_list) ∪ {item.strip() | item ∈ new_items, item.strip() ≠ ""})`;
the set's iteration order is unspecified, modelled here as
first-occurrence order with duplicates removed. -/
def update_todo_list (todos new_items : List String) : List String :=
  (todos ++ (new_items.map pyStrip).filter (fun s => !s.data.isEmpty)).dedup

/-- `ULCAgent._update_context`: append the turn to the history and reset
the status; `now` is the environment timestamp for the entry. -/
def update_context (ctx : ProjectContext) (now user_input agent_response action_taken : String) :
    ProjectContext :=
  { ctx with
    conversation_history := ctx.conversation_history ++
      [⟨now, user_input, agent_response, action_taken⟩],
    current_status := "awaiting_user_input" }

/-- The apology `process_user_input` returns when the backend value is
error-marked. -/
def llmErrorApology : String :=
  "I\x27m sorry, but I encountered an error communicating with my local Claude model. Please check that the model is running and accessible."

/-- `ULCAgent.process_user_input` from the point the backend reply is in
hand: `_build_system_prompt` only reads the context and environment
data (directory listing, clock), and `llm_response` is the value
`_call_llm` returned for the assembled prompt.  Returns the new agent
state and the reply handed to the caller. -/
def process_user_input (st : AgentState) (now user_input llm_response : String) :
    AgentState × String :=
  if pyStartsWith llm_response errMarker then (st, llmErrorApology)
  else
    match parse_llm_response llm_response with
    | (parsed_response, _actions, todo_items, needs_confirmation, confirmation_question) =>
      let st1 := if !todo_items.isEmpty then
          { st with context := { st.context with
              todo_list := update_todo_list st.context.todo_list todo_items } }
        else st
      if needs_confirmation then
        ({ st1 with
            confirmation_mode := true,
            pending_action := some "llm_confirmation",
            pending_question := some confirmation_question }, "AWAITING_CONFIRMATION")
      else
        ({ st1 with context := update_context st1.context now user_input parsed_response "" },
         parsed_response)

/-- The synthetic follow-up prompt sent after an affirmative
confirmation. -/
def followUpPrompt (user_input : String) : String :=
  "User has confirmed: \x27" ++ user_input ++ "\x27. Please proceed with the action you were planning."

/-- The cancellation notice returned on a negative confirmation. -/
def cancellationNotice : String := "Action cancelled by user. What would you like to do instead?"

/-- The notice returned on an exit token during confirmation. -/
def exitNotice : String := "Confirmation mode exited. What would you like to do?"

/-- The clarification request returned on an unrecognized confirmation
response. -/
def clarificationRequest (user_input : String) : String :=
  "I didn\x27t understand your response \x27" ++ user_input ++
  "\x27. Please respond with \x27yes\x27, \x27no\x27, or \x27exit\x27 to continue."

/-- Affirmative confirmation tokens recognized by
`_handle_confirmation_response`. -/
def affirmativeTokens : List String := ["yes", "y", "proceed", "continue", "approve"]

/-- Negative confirmation tokens. -/
def negativeTokens : List String := ["no", "n", "cancel", "stop", "deny"]

/-- Exit tokens recognized during confirmation. -/
def exitTokens : List String := ["exit", "quit", "q"]

/-- `ULCAgent._handle_confirmation_response`: `llm` supplies the backend
reply for a follow-up prompt (`_call_llm`).  Returns the new state,
the reply, and the list of backend prompts issued, in order. -/
def handle_confirmation_response (llm : String → String) (st : AgentState)
    (user_input : String) : AgentState × String × List String :=
  if !st.confirmation_mode then (st, "No confirmation pending", [])
  else
    let user_input_lower := pyStrip (pyLower user_input)
    if user_input_lower ∈ affirmativeTokens then
      ({ st with confirmation_mode := false, pending_action := none, pending_question := none },
       llm (followUpPrompt user_input), [followUpPrompt user_input])
    else if user_input_lower ∈ negativeTokens then
      ({ st with confirmation_mode := false, pending_action := none, pending_question := none },
       cancellationNotice, [])
    else if user_input_lower ∈ exitTokens then
      ({ st with confirmation_mode := false, pending_action := none, pending_question := none },
       exitNotice, [])
    else (st, clarificationRequest user_input, [])

/-- The project filesystem, as an association list from relative path to
file content. -/
abbrev FileSys := List (String × String)

/-- Content stored at `path`, when the file exists. -/
def lookupFile (fs : FileSys) (path : String) : Option String :=
  (fs.find? (fun p => p.1 == path)).map Prod.snd

/-- Write `content` at `path` (create or overwrite). -/
def writeFile (fs : FileSys) (path content : String) : FileSys :=
  if (fs.find? (fun p => p.1 == path)).isSome then
    fs.map (fun p => if p.1 == path then (p.1, content) else p)
  else fs ++ [(path, content)]

/-- Remove the file at `path`. -/
def removeFile (fs : FileSys) (path : String) : FileSys :=
  fs.filter (fun p => p.1 != path)

/-- `ULCAgent._handle_file_operation`: blocking approval prompt;
`response` is the human reply read from `input()`.  Empty input
counts as yes. -/
def handle_file_operation (response : String) : Bool :=
  ["", "y", "yes"].contains (pyLower (pyStrip response))

/-- `ULCAgent._create_file`; `response` is what the human would answer
if prompted.  Returns the result, the new filesystem, and the number
of approval prompts issued (0 or 1).  OS-level write errors are
environment faults outside the model. -/
def create_file (response : String) (fs : FileSys) (file_path content : String) :
    Bool × FileSys × Nat :=
  match lookupFile fs file_path with
  | some _ =>
    if handle_file_operation response then (true, writeFile fs file_path content, 1)
    else (false, fs, 1)
  | none => (true, writeFile fs file_path content, 0)

/-- `ULCAgent._modify_file`: falls back to `_create_file` when the file
does not exist. -/
def modify_file (response : String) (fs : FileSys) (file_path content : String) :
    Bool × FileSys × Nat :=
  match lookupFile fs file_path with
  | none => create_file response fs file_path content
  | some _ =>
    if handle_file_operation response then (true, writeFile fs file_path content, 1)
    else (false, fs, 1)

/-- `ULCAgent._delete_file`. -/
def delete_file (response : String) (fs : FileSys) (file_path : String) :
    Bool × FileSys × Nat :=
  match lookupFile fs file_path with
  | none => (false, fs, 0)
  | some _ =>
    if handle_file_operation response then (true, removeFile fs file_path, 1)
    else (false, fs, 1)

/-- JSON values, modelling what `json.load` of the context file can
yield. -/
inductive Json where
  | null
  | bool (b : Bool)
  | num (n : Int)
  | str (s : String)
  | arr (elems : List Json)
  | obj (fields : List (String × Json))
deriving Repr

/-- Value of a key in a JSON object. -/
def jsonLookup (j : Json) (key : String) : Option Json :=
  match j with
  | .obj fields => (fields.find? (fun p => p.1 == key)).map Prod.snd
  | _ => none

/-- Python dict assignment `d[key] = value`: replace in place, append if
absent. -/
def setField (fields : List (String × Json)) (key : String) (value : Json) :
    List (String × Json) :=
  if (fields.find? (fun p => p.1 == key)).isSome then
    fields.map (fun p => if p.1 == key then (p.1, value) else p)
  else fields ++ [(key, value)]

/-- The fresh context dict `_load_or_create_context` builds;
`project_dir` and `now` come from the environment. -/
def freshContextJson (project_dir now : String) : Json :=
  .obj [("project_directory", .str project_dir),
        ("created_at", .str now),
        ("last_updated", .str now),
        ("conversation_history", .arr []),
        ("project_goal", .str ""),
        ("todo_list", .arr []),
        ("current_status", .str "awaiting_user_input"),
        ("file_operations", .arr []),
        ("build_attempts", .arr []),
        ("llm_config", .obj [("model", .str "claude-3.5-sonnet"),
                             ("api_base", .str "http://localhost:11434/api/generate")])]

/-- State of the context file on disk: `none` when the file does not
exist; `some none` when it exists but `json.load` fails (invalid JSON
or read error); `some (some j)` when it parses to `j`. -/
abbrev ContextFile := Option (Option Json)

/-- `ULCAgent._save_context`: re-stamp `last_updated` and serialize.
`json.dump` of an in-memory value always writes well-formed JSON, so
the written file parses back to the written value; a non-dict context
makes the `last_updated` assignment raise (`none` here), which the
source does not catch. -/
def save_context (j : Json) (now : String) : Option Json :=
  match j with
  | .obj fields => some (.obj (setField fields "last_updated" (.str now)))
  | _ => none

/-- `ULCAgent._load_or_create_context`: return the parsed record when
the file exists and parses (whatever its shape); otherwise build a
fresh context and save it.  Returns the in-memory context and the
resulting context file state. -/
def load_or_create_context (project_dir now : String) (file : ContextFile) :
    Json × ContextFile :=
  match file with
  | some (some j) => (j, file)
  | some none => (freshContextJson project_dir now,
                  some (save_context (freshContextJson project_dir now) now))
  | none => (freshContextJson project_dir now,
             some (save_context (freshContextJson project_dir now) now))

/-- Attempt outcomes failing twice with connection errors, then
succeeding. -/
def connThenSuccess : Nat → AttemptOutcome :=
  fun n => if n ≤ 1 then .connectionError else .success (some " ok ")

/-- A fresh agent state over an empty project, used by concrete
witnesses. -/
def initialState : AgentState :=
  { context := { project_directory := "/proj", conversation_history := [],
                 project_goal := "", todo_list := [],
                 current_status := "awaiting_user_input",
                 file_operations := [], build_attempts := [] },
    confirmation_mode := false, pending_action := none, pending_question := none }

/-- An agent state awaiting confirmation, used by concrete witnesses. -/
def confirmState : AgentState :=
  { initialState with
      confirmation_mode := true,
      pending_action := some "llm_confirmation",
      pending_question := some "Should I proceed?" }

theorem isPrefixOf_extend (l₁ l₂ l₃ : List Char) (h : l₁.isPrefixOf l₂ = true) :
    l₁.isPrefixOf (l₂ ++ l₃) = true := by
  induction l₁ generalizing l₂ with
  | nil => cases l₂ ++ l₃ <;> rfl
  | cons c cs ih =>
    cases l₂ with
    | nil => simp only [List.isPrefixOf, Bool.false_eq_true] at h
    | cons d ds =>
      simp only [List.isPrefixOf, List.cons_append, Bool.and_eq_true] at h ⊢
      exact ⟨h.1, ih ds h.2⟩

theorem pyStartsWith_append (a e b : String) (h : pyStartsWith a b = true) :
    pyStartsWith (a ++ e) b = true :=
  isPrefixOf_extend b.data a.data e.data h

theorem callLlmAux_congr (o3 o4 : Nat → AttemptOutcome) :
    ∀ fuel attempt sleeps, (∀ i, attempt ≤ i → i < attempt + fuel → o3 i = o4 i) →
    callLlmAux o3 fuel attempt sleeps = callLlmAux o4 fuel attempt sleeps := by
  intro fuel
  induction fuel with
  | zero => intro attempt sleeps _; rfl
  | succ n ih =>
    intro attempt sleeps h
    unfold callLlmAux
    rw [h attempt (le_refl _) (by omega)]
    rcases o4 attempt with (_ | t) | _ | _ | e | e
    all_goals try dsimp only
    · split
      · exact ih (attempt + 1) (sleeps ++ [5]) (fun i hi1 hi2 => h i (by omega) (by omega))
      · rfl
    · split
      · exact ih (attempt + 1) (sleeps ++ [2 ^ attempt])
          (fun i hi1 hi2 => h i (by omega) (by omega))
      · rfl
    · split
      · exact ih (attempt + 1) (sleeps ++ [2 ^ attempt])
          (fun i hi1 hi2 => h i (by omega) (by omega))
      · rfl

/-- C5: `_call_llm` consults at most the first `MAX_RETRIES` attempt
outcomes; on connection failures at attempts 1 and 2 and success at
attempt 3 it returns the stripped success text (error-free whenever
that text is not itself error-marked); when every attempt times out
it returns the timeout error value — marked and mentioning the
timeout — having slept a fixed 5 seconds between consecutive
attempts. -/
theorem call_llm_retry_behavior (o : Nat → AttemptOutcome) (t : String)
    (h0 : o 0 = .connectionError) (h1 : o 1 = .connectionError)
    (h2 : o 2 = .success (some t)) :
    ((call_llm o).1 = pyStrip t ∧
      (pyStartsWith (pyStrip t) errMarker = false →
        pyStartsWith (call_llm o).1 errMarker = false)) ∧
    (∀ o2 : Nat → AttemptOutcome, (∀ i, o2 i = .timeout) →
      (call_llm o2).1 = timeoutErrorMsg ∧
      pyStartsWith timeoutErrorMsg errMarker = true ∧
      pyContains timeoutErrorMsg "timed out" = true ∧
      (call_llm o2).2 = [5, 5]) ∧
    ∀ o3 o4 : Nat → AttemptOutcome, (∀ i, i < MAX_RETRIES → o3 i = o4 i) →
      call_llm o3 = call_llm o4 := by
  refine ⟨?_, ?_, ?_⟩
  · have hres : call_llm o = (pyStrip t, [1, 2]) := by
      show callLlmAux o 3 0 [] = _
      unfold callLlmAux
      rw [h0]
      norm_num [MAX_RETRIES]
      unfold callLlmAux
      rw [h1]
      norm_num [MAX_RETRIES]
      unfold callLlmAux
      rw [h2]
    rw [hres]
    exact ⟨rfl, fun h => h⟩
  · intro o2 ht
    have hres : call_llm o2 = (timeoutErrorMsg, [5, 5]) := by
      show callLlmAux o2 3 0 [] = _
      unfold callLlmAux
      rw [ht 0]
      norm_num [MAX_RETRIES]
      unfold callLlmAux
      rw [ht 1]
      norm_num [MAX_RETRIES]
      unfold callLlmAux
      rw [ht 2]
      norm_num [MAX_RETRIES]
    rw [hres]
    exact ⟨rfl, by decide, by decide, rfl⟩
  · intro o3 o4 h
    exact callLlmAux_congr o3 o4 MAX_RETRIES 0 [] (fun i _ hi2 => h i (by omega))

/-- Witness for C5 at concrete attempt outcomes. -/
theorem call_llm_retry_behavior_witness :
    (call_llm connThenSuccess).1 = "ok" ∧
    (call_llm (fun _ => .timeout)).1 = timeoutErrorMsg ∧
    (call_llm (fun _ => .timeout)).2 = [5, 5] := by
  have h := call_llm_retry_behavior connThenSuccess " ok " rfl rfl rfl
  have hto := h.2.1 (fun _ => .timeout) (fun _ => rfl)
  exact ⟨h.1.1.trans (by decide), hto.1, hto.2.2.2⟩

theorem callLlmAux_error_marked (o : Nat → AttemptOutcome)
    (h : ∀ i t, o i ≠ .success (some t)) :
    ∀ fuel attempt sleeps, pyStartsWith (callLlmAux o fuel attempt sleeps).1 errMarker = true := by
  have hreq : ∀ e, pyStartsWith (requestErrorMsg e) errMarker = true := fun e =>
    pyStartsWith_append _ e _ (by decide)
  have hunexp : ∀ e, pyStartsWith (unexpectedErrorMsg e) errMarker = true := fun e =>
    pyStartsWith_append _ e _ (by decide)
  intro fuel
  induction fuel with
  | zero =>
    intro attempt sleeps
    exact (by decide : pyStartsWith exhaustedMsg errMarker = true)
  | succ n ih =>
    intro attempt sleeps
    unfold callLlmAux
    rcases ho : o attempt with (_ | t) | _ | _ | e | e
    all_goals try dsimp only
    · exact (by decide : pyStartsWith unexpectedFormatMsg errMarker = true)
    · exact absurd ho (h attempt t)
    · split
      · exact ih (attempt + 1) (sleeps ++ [5])
      · exact (by decide : pyStartsWith timeoutErrorMsg errMarker = true)
    · split
      · exact ih (attempt + 1) (sleeps ++ [2 ^ attempt])
      · exact (by decide : pyStartsWith connectionErrorMsg errMarker = true)
    · split
      · exact ih (attempt + 1) (sleeps ++ [2 ^ attempt])
      · exact hreq e
    · exact hunexp e

/-- C6 (amended): every error value `_call_llm` can return starts with
the reserved marker `Error:`, but the marker's presence does not
exactly characterize failure: the success value is the backend's own
text, which may itself start with `Error:`. -/
theorem call_llm_error_values_marked (o : Nat → AttemptOutcome)
    (h : ∀ i t, o i ≠ .success (some t)) :
    pyStartsWith (call_llm o).1 errMarker = true :=
  callLlmAux_error_marked o h MAX_RETRIES 0 []

/-- Witness for C6 at concrete all-timeout outcomes. -/
theorem call_llm_error_values_marked_witness :
    pyStartsWith (call_llm (fun _ => .timeout)).1 errMarker = true :=
  call_llm_error_values_marked (fun _ => .timeout) (fun i t h => by cases h)

/-- C6 counterexample: a successful backend reply whose own text is
`Error: boom` yields a success value carrying the reserved marker, so
callers branching on the marker treat it as failure. -/
theorem error_marker_counterexample :
    (call_llm (fun _ => .success (some "Error: boom"))).1 = "Error: boom" ∧
    pyStartsWith (call_llm (fun _ => .success (some "Error: boom"))).1 errMarker = true := by
  constructor
  · decide
  · decide

/-- C1: in `AWAITING_CONFIRMATION`, an input recognized as affirmative
(`yes`, `y`, `proceed`, `continue`, `approve`) clears the pending
state, issues exactly one synthetic follow-up backend call, returns
that call's result as the turn's reply, and returns the gate to
`READY`; an input recognized as negative (`no`, `n`, `cancel`,
`stop`, `deny`) clears the pending state, returns the cancellation
notice, and issues zero backend calls. -/
theorem confirmation_yes_no (llm : String → String) (st : AgentState) (input : String)
    (hmode : st.confirmation_mode = true) :
    (pyStrip (pyLower input) ∈ affirmativeTokens →
      handle_confirmation_response llm st input =
        ({ st with
            confirmation_mode := false,
            pending_action := none,
            pending_question := none },
         llm (followUpPrompt input), [followUpPrompt input])) ∧
    (pyStrip (pyLower input) ∈ negativeTokens →
      handle_confirmation_response llm st input =
        ({ st with
            confirmation_mode := false,
            pending_action := none,
            pending_question := none },
         cancellationNotice, [])) := by
  constructor
  · intro haff
    simp [handle_confirmation_response, hmode, haff]
  · intro hneg
    have hnaff : pyStrip (pyLower input) ∉ affirmativeTokens := by
      have h := hneg
      simp only [negativeTokens, List.mem_cons, List.not_mem_nil, or_false] at h
      rcases h with h | h | h | h | h <;> rw [h] <;> decide
    simp [handle_confirmation_response, hmode, hneg, hnaff]

/-- Witness for C1 at the concrete inputs `yes` and `no`. -/
theorem confirmation_yes_no_witness :
    handle_confirmation_response (fun _ => "done") confirmState "yes" =
      ({ confirmState with
          confirmation_mode := false,
          pending_action := none,
          pending_question := none }, "done", [followUpPrompt "yes"]) ∧
    handle_confirmation_response (fun _ => "done") confirmState "no" =
      ({ confirmState with
          confirmation_mode := false,
          pending_action := none,
          pending_question := none }, cancellationNotice, []) := by
  have h1 := confirmation_yes_no (fun _ => "done") confirmState "yes" rfl
  have h2 := confirmation_yes_no (fun _ => "done") confirmState "no" rfl
  exact ⟨h1.1 (by decide), h2.2 (by decide)⟩

/-- C3 (amended): whenever the interpreter signals needsConfirmation for
a non-error-marked reply, the gate transitions to
`AWAITING_CONFIRMATION` with the extracted question pending, but the
caller receives the fixed sentinel string `AWAITING_CONFIRMATION` in
place of the reply text. -/
theorem needs_confirmation_transition (st : AgentState) (now user_input llm_response : String)
    (herr : pyStartsWith llm_response errMarker = false)
    (hnc : (detectConfirmation llm_response).1 = true) :
    (process_user_input st now user_input llm_response).1.confirmation_mode = true ∧
    (process_user_input st now user_input llm_response).1.pending_action =
      some "llm_confirmation" ∧
    (process_user_input st now user_input llm_response).1.pending_question =
      some (detectConfirmation llm_response).2 ∧
    (process_user_input st now user_input llm_response).2 = "AWAITING_CONFIRMATION" := by
  simp [process_user_input, parse_llm_response, herr, hnc]

/-- Witness for C3 at a concrete confirmation-seeking reply. -/
theorem needs_confirmation_transition_witness :
    pyStartsWith "Should I proceed with deleting the file?" errMarker = false ∧
    (detectConfirmation "Should I proceed with deleting the file?").1 = true ∧
    (process_user_input initialState "t0" "hi"
        "Should I proceed with deleting the file?").1.confirmation_mode = true ∧
    (process_user_input initialState "t0" "hi"
        "Should I proceed with deleting the file?").2 = "AWAITING_CONFIRMATION" :=
  ⟨by decide, by decide,
   (needs_confirmation_transition initialState "t0" "hi"
      "Should I proceed with deleting the file?" (by decide) (by decide)).1,
   (needs_confirmation_transition initialState "t0" "hi"
      "Should I proceed with deleting the file?" (by decide) (by decide)).2.2.2⟩

/-- C3 counterexample: for the backend reply `Should I proceed with
deleting the file?` the interpreter signals needsConfirmation and the
gate enters `AWAITING_CONFIRMATION`, but the caller receives the
sentinel string, not the reply text annotated as pending. -/
theorem needs_confirmation_reply_counterexample :
    (detectConfirmation "Should I proceed with deleting the file?").1 = true ∧
    (process_user_input initialState "t0" "hi"
        "Should I proceed with deleting the file?").2 = "AWAITING_CONFIRMATION" ∧
    (process_user_input initialState "t0" "hi"
        "Should I proceed with deleting the file?").2 ≠
      "Should I proceed with deleting the file?" := by
  refine ⟨by decide, by decide, by decide⟩

/-- C9: a turn whose reply triggers needsConfirmation returns the
sentinel before recording anything: the conversation history and all
context fields other than the todo list are unchanged, and
`_handle_confirmation_response` never touches the context either, so
the follow-up reply after an affirmative confirmation is not
recorded. -/
theorem confirmation_turn_not_recorded (st : AgentState) (now user_input llm_response : String)
    (herr : pyStartsWith llm_response errMarker = false)
    (hnc : (detectConfirmation llm_response).1 = true) :
    ((process_user_input st now user_input llm_response).1.context.conversation_history =
        st.context.conversation_history ∧
      (process_user_input st now user_input llm_response).1.context.project_goal =
        st.context.project_goal ∧
      (process_user_input st now user_input llm_response).1.context.current_status =
        st.context.current_status ∧
      (process_user_input st now user_input llm_response).1.context.file_operations =
        st.context.file_operations ∧
      (process_user_input st now user_input llm_response).1.context.build_attempts =
        st.context.build_attempts ∧
      (process_user_input st now user_input llm_response).1.context.project_directory =
        st.context.project_directory ∧
      (process_user_input st now user_input llm_response).2 = "AWAITING_CONFIRMATION") ∧
    ∀ (llm : String → String) (st2 : AgentState) (resp : String),
      (handle_confirmation_response llm st2 resp).1.context = st2.context := by
  constructor
  · simp only [process_user_input, parse_llm_response, herr, Bool.false_eq_true, if_false, hnc,
      if_true]
    split <;> simp
  · intro llm st2 resp
    simp only [handle_confirmation_response]
    repeat' split
    all_goals rfl

/-- Witness for C9 at a concrete confirmation-seeking reply. -/
theorem confirmation_turn_not_recorded_witness :
    (process_user_input initialState "t0" "hi"
        "Should I proceed with renaming it?").1.context.conversation_history =
      initialState.context.conversation_history ∧
    (process_user_input initialState "t0" "hi"
        "Should I proceed with renaming it?").2 = "AWAITING_CONFIRMATION" ∧
    (handle_confirmation_response (fun _ => "done") confirmState "yes").1.context =
      confirmState.context := by
  have h := confirmation_turn_not_recorded initialState "t0" "hi"
    "Should I proceed with renaming it?" (by decide) (by decide)
  exact ⟨h.1.1, h.1.2.2.2.2.2.2, h.2 (fun _ => "done") confirmState "yes"⟩

/-- C4 counterexample: the third line `- Not a task line` starts with a
bullet marker and its lowercase form contains `task`, so the code
includes it as well; interpretation yields all three lines, not the
claimed two. -/
theorem todo_extraction_counterexample :
    extractTodoItems "- todo: add logging\n* Task: write tests\n- Not a task line" =
      ["- todo: add logging", "* Task: write tests", "- Not a task line"] ∧
    "- Not a task line" ∈
      extractTodoItems "- todo: add logging\n* Task: write tests\n- Not a task line" := by
  exact ⟨by decide, by decide⟩

/-- C4 (amended): interpreting that reply yields the work-item set of
all three lines — each starts with a bullet marker and each lowercase
form contains `todo` or `task` (the third contains `task`) — and
adding them to an empty todo set keeps exactly those three entries. -/
theorem todo_extraction_scenario :
    extractTodoItems "- todo: add logging\n* Task: write tests\n- Not a task line" =
      ["- todo: add logging", "* Task: write tests", "- Not a task line"] ∧
    update_todo_list []
        (extractTodoItems "- todo: add logging\n* Task: write tests\n- Not a task line") =
      ["- todo: add logging", "* Task: write tests", "- Not a task line"] := by
  exact ⟨by decide, by decide⟩

/-- C2 (amended): modify of an existing file and delete each obtain one
synchronous human approval before mutating and leave the filesystem
unchanged when denied; create obtains approval only when the target
path already exists (overwrite) — at a fresh path it writes with no
approval at all — and an empty approval response counts as
affirmative. -/
theorem file_operation_approvals (resp : String) (fs : FileSys) (path content : String)
    (hex : (lookupFile fs path).isSome = true) :
    (handle_file_operation resp = true →
      create_file resp fs path content = (true, writeFile fs path content, 1) ∧
      modify_file resp fs path content = (true, writeFile fs path content, 1) ∧
      delete_file resp fs path = (true, removeFile fs path, 1)) ∧
    (handle_file_operation resp = false →
      create_file resp fs path content = (false, fs, 1) ∧
      modify_file resp fs path content = (false, fs, 1) ∧
      delete_file resp fs path = (false, fs, 1)) ∧
    (∀ fs2 : FileSys, lookupFile fs2 path = none →
      create_file resp fs2 path content = (true, writeFile fs2 path content, 0)) ∧
    handle_file_operation "" = true := by
  obtain ⟨c, hc⟩ := Option.isSome_iff_exists.mp hex
  refine ⟨fun hy => ?_, fun hn => ?_, fun fs2 h2 => ?_, by decide⟩
  · exact ⟨by simp [create_file, hc, hy], by simp [modify_file, hc, hy],
      by simp [delete_file, hc, hy]⟩
  · exact ⟨by simp [create_file, hc, hn], by simp [modify_file, hc, hn],
      by simp [delete_file, hc, hn]⟩
  · simp [create_file, h2]

/-- Witness for C2 at a concrete one-file filesystem. -/
theorem file_operation_approvals_witness :
    delete_file "" [("a.txt", "x")] "a.txt" = (true, [], 1) ∧
    create_file "n" [("a.txt", "x")] "a.txt" "y" = (false, [("a.txt", "x")], 1) := by
  have h1 := file_operation_approvals "" [("a.txt", "x")] "a.txt" "y" (by decide)
  have h2 := file_operation_approvals "n" [("a.txt", "x")] "a.txt" "y" (by decide)
  exact ⟨((h1.1 (by decide)).2.2).trans (by decide), (h2.2.1 (by decide)).2.2⟩

/-- C2 counterexample: creating a file at a path that does not exist yet
mutates the filesystem with zero approval prompts, even with a human
response that would deny the operation. -/
theorem create_without_approval_counterexample :
    create_file "n" [] "notes.txt" "hello" = (true, [("notes.txt", "hello")], 0) ∧
    handle_file_operation "n" = false := by
  exact ⟨by decide, by decide⟩

/-- C7: when the context file exists but fails to parse, load recovers
locally: it returns the freshly-initialized context — empty
conversation history, default status `awaiting_user_input` — and the
save it performs writes a well-formed record that parses back to that
fresh context. -/
theorem corrupt_context_recovered (project_dir now : String) :
    (load_or_create_context project_dir now (some none)).1 =
      freshContextJson project_dir now ∧
    jsonLookup (load_or_create_context project_dir now (some none)).1
      "conversation_history" = some (.arr []) ∧
    jsonLookup (load_or_create_context project_dir now (some none)).1
      "current_status" = some (.str "awaiting_user_input") ∧
    (load_or_create_context project_dir now (some none)).2 =
      some (some (freshContextJson project_dir now)) :=
  ⟨rfl, rfl, rfl, rfl⟩

/-- C10: load validates only JSON parseability, not record shape: when
the stored file parses to any JSON value — a `ProjectContext`-shaped
object or not (an array, a bare string) — load returns that value
unchanged as the session context and does not reinitialize. -/
theorem load_returns_parsed_value (project_dir now : String) (j : Json) :
    load_or_create_context project_dir now (some (some j)) = (j, some (some j)) := rfl

/-- C8: when the turn's backend value is error-marked — as it is after
connection failures on every attempt — the turn returns the apology
and the whole agent state, conversation history included, is
unchanged. -/
theorem backend_error_turn_unrecorded (st : AgentState) (now user_input llm_response : String)
    (herr : pyStartsWith llm_response errMarker = true) :
    process_user_input st now user_input llm_response = (st, llmErrorApology) ∧
    ∀ o : Nat → AttemptOutcome, (∀ i, o i = .connectionError) →
      process_user_input st now user_input (call_llm o).1 = (st, llmErrorApology) := by
  constructor
  · simp [process_user_input, herr]
  · intro o ho
    have hpair : call_llm o = (connectionErrorMsg, [1, 2]) := by
      show callLlmAux o 3 0 [] = _
      unfold callLlmAux
      rw [ho 0]
      norm_num [MAX_RETRIES]
      unfold callLlmAux
      rw [ho 1]
      norm_num [MAX_RETRIES]
      unfold callLlmAux
      rw [ho 2]
      norm_num [MAX_RETRIES]
    rw [hpair]
    simp [process_user_input, (by decide : pyStartsWith connectionErrorMsg errMarker = true)]

/-- Witness for C8 at a concrete error value and all-connection-failure
outcomes. -/
theorem backend_error_turn_unrecorded_witness :
    process_user_input initialState "t0" "hi" "Error: down" =
      (initialState, llmErrorApology) ∧
    process_user_input initialState "t0" "hi" (call_llm (fun _ => .connectionError)).1 =
      (initialState, llmErrorApology) := by
  have h := backend_error_turn_unrecorded initialState "t0" "hi" "Error: down" (by decide)
  exact ⟨h.1, h.2 (fun _ => .connectionError) (fun _ => rfl)⟩

end ULCA
